import Mathlib

/-!
Verification of the 2-by-2 matrix module `lib/common/Mat22.js` of planck.js.

Embedding choices:
* JavaScript numbers are modelled by `JsNum`: a finite double is an exact
  rational (`JsNum.fin q`), and every non-finite double (NaN or an infinity)
  is collapsed into the single element `JsNum.undef`, which is absorbing for
  the arithmetic used here.  `Math.isFinite` is `JsNum.isFinite`.
* A `Vec2` value is the pair of its `x`/`y` components; a `Mat22` value is the
  pair of its column vectors `ex`/`ey`.  Operations that can trip a debug
  assertion (`Vec2.assert`, `Mat22.assert`, `common.assert(false)`) are
  embedded in `Except String`, with `.error` marking the raised assertion;
  `getInverse` contains no assertion in the source and is embedded as a pure
  total function.
* The runtime operand dispatch of `Mat22.mul` / `Mat22.mulT` (the JS tests
  `'x' in v && 'y' in v` and `'ex' in v && 'ey' in v`) is embedded by `JsObj`,
  a record of optional fields; a field that is `none` is absent from the
  object.  A genuine `Vec2` instance presents only `x`/`y`, a genuine `Mat22`
  instance only `ex`/`ey` (`vecObj` / `matObj`).
* Allocation and mutation (`new Mat22()`, `new Vec2()`, the field writes of
  `getInverse`, and the in-place setters) are modelled separately by a store
  of `Vec2` cells addressed by naturals (`Store`, `getInverseH`, `solveH`);
  object identity of a matrix is the pair of addresses of its column cells.
* `Vec2.js` and `lib/util/common.js` are not part of the sources; the vector
  helpers they provide are modelled from the specification and are marked
  `Modelled from the spec:` below.
-/

/-- A JavaScript number: a finite double modelled as an exact rational, or
the single non-finite element (NaN and the infinities collapsed). -/
inductive JsNum where
  | fin (q : ℚ)
  | undef
deriving DecidableEq, Repr

namespace JsNum

/-- `Math.isFinite` on a `JsNum`. -/
def isFinite : JsNum → Bool
  | fin _ => true
  | undef => false

/-- JS `+` on numbers; any non-finite operand yields a non-finite result. -/
def jadd : JsNum → JsNum → JsNum
  | fin a, fin b => fin (a + b)
  | _, _ => undef

/-- JS `-` on numbers. -/
def jsub : JsNum → JsNum → JsNum
  | fin a, fin b => fin (a - b)
  | _, _ => undef

/-- JS `*` on numbers. -/
def jmul : JsNum → JsNum → JsNum
  | fin a, fin b => fin (a * b)
  | _, _ => undef

/-- JS unary minus. -/
def jneg : JsNum → JsNum
  | fin a => fin (-a)
  | undef => undef

/-- JS `/`: division by `0.0` gives a non-finite value (an infinity or NaN),
division involving a non-finite operand is non-finite here. -/
def jdiv : JsNum → JsNum → JsNum
  | fin a, fin b => if b = 0 then undef else fin (a / b)
  | _, _ => undef

/-- The JS test `n != 0.0`: true for every non-zero finite value and for NaN
and the infinities. -/
def neZero : JsNum → Bool
  | fin a => decide (a ≠ 0)
  | undef => true

end JsNum

open JsNum

/-- A 2D vector value: the `x` and `y` components of a `Vec2` object. -/
structure Vec2 where
  x : JsNum
  y : JsNum
deriving DecidableEq, Repr

namespace Vec2

/-- Modelled from the spec: `Vec2.isValid` — a vector is valid iff both
components are finite, non-NaN numbers (`Vec2.js` is not under src/). -/
def isValid (v : Vec2) : Bool :=
  v.x.isFinite && v.y.isFinite

/-- Modelled from the spec: the vector dot product provided by the companion
vector type (`Vec2.dot`; `Vec2.js` is not under src/). -/
def dot (v w : Vec2) : JsNum :=
  jadd (jmul v.x w.x) (jmul v.y w.y)

/-- Modelled from the spec: `Vec2.abs`, the element-wise absolute value of a
vector (`Vec2.js` is not under src/). -/
def jabs : JsNum → JsNum
  | fin a => fin |a|
  | undef => undef

/-- Modelled from the spec: element-wise absolute value of a vector. -/
def vabs (v : Vec2) : Vec2 :=
  ⟨jabs v.x, jabs v.y⟩

end Vec2

/-- A 2-by-2 matrix value, stored in column-major order: the column vectors
`ex` and `ey` of a `Mat22` object. -/
structure Mat22 where
  ex : Vec2
  ey : Vec2
deriving DecidableEq, Repr

namespace Mat22

/-- The scalar form of the `Mat22(a, b, c, d)` constructor:
`ex = (a, c)`, `ey = (b, d)`. -/
def ofScalars (a b c d : ℚ) : Mat22 :=
  ⟨⟨fin a, fin c⟩, ⟨fin b, fin d⟩⟩

/-- `Mat22.isValid`: both columns are valid vectors. -/
def isValid (m : Mat22) : Bool :=
  Vec2.isValid m.ex && Vec2.isValid m.ey

/-- `Mat22.prototype.setIdentity`: the receiver after the four field writes
`ex.x = 1, ey.x = 0, ex.y = 0, ey.y = 1` (state-passing embedding of the
in-place mutation). -/
def setIdentity (_m : Mat22) : Mat22 :=
  ⟨⟨fin 1, fin 0⟩, ⟨fin 0, fin 1⟩⟩

/-- `Mat22.prototype.setZero`: the receiver after zeroing all four fields. -/
def setZero (_m : Mat22) : Mat22 :=
  ⟨⟨fin 0, fin 0⟩, ⟨fin 0, fin 0⟩⟩

/-- `Mat22.prototype.getInverse`: `det = a*d - b*c` with `a = ex.x`,
`b = ey.x`, `c = ex.y`, `d = ey.y`; if `det != 0.0` the reciprocal `1/det`
is used, otherwise the zero determinant itself; the result matrix is
`ex = (det*d, -det*c)`, `ey = (-det*b, det*a)`.  The source contains no
assertion here, so the embedding is a pure total function. -/
def getInverse (m : Mat22) : Mat22 :=
  let a := m.ex.x
  let b := m.ey.x
  let c := m.ex.y
  let d := m.ey.y
  let det0 := jsub (jmul a d) (jmul b c)
  let det := if det0.neZero then jdiv (fin 1) det0 else det0
  ⟨⟨jmul det d, jmul (jneg det) c⟩, ⟨jmul (jneg det) b, jmul det a⟩⟩

/-- `Mat22.prototype.solve`: `Vec2.assert(v)` (an `.error` when `v` is
invalid, in a debug build), then Cramer's rule with the same zero-determinant
policy as `getInverse`:
`w = (det*(d*v.x - b*v.y), det*(a*v.y - c*v.x))`. -/
def solve (m : Mat22) (v : Vec2) : Except String Vec2 :=
  if !v.isValid then .error "Invalid Vec2!" else
  let a := m.ex.x
  let b := m.ey.x
  let c := m.ex.y
  let d := m.ey.y
  let det0 := jsub (jmul a d) (jmul b c)
  let det := if det0.neZero then jdiv (fin 1) det0 else det0
  .ok ⟨jmul det (jsub (jmul d v.x) (jmul b v.y)),
       jmul det (jsub (jmul a v.y) (jmul c v.x))⟩

end Mat22

/-- Modelled from the spec: the call `Vec2.mul(mx, col)` made by the matrix
branch of `Mat22.mul` (`Vec2.js` is not under src/).  The spec states the
result columns are "the left matrix applied to each column of the right
matrix", i.e. this call is the matrix–vector product
`(ex.x*col.x + ey.x*col.y, ex.y*col.x + ey.y*col.y)`. -/
def Vec2.mulByMat (mx : Mat22) (col : Vec2) : Vec2 :=
  ⟨jadd (jmul mx.ex.x col.x) (jmul mx.ey.x col.y),
   jadd (jmul mx.ex.y col.x) (jmul mx.ey.y col.y)⟩

/-- A JavaScript object as seen by the operand dispatch of `Mat22.mul` and
`Mat22.mulT`: each field is `some _` exactly when the JS `in` test finds it
on the object. -/
structure JsObj where
  xf : Option JsNum := none
  yf : Option JsNum := none
  exf : Option Vec2 := none
  eyf : Option Vec2 := none
deriving DecidableEq, Repr

/-- A genuine `Vec2` instance as an operand: it has `x`/`y` fields and no
`ex`/`ey` fields. -/
def vecObj (v : Vec2) : JsObj :=
  { xf := some v.x, yf := some v.y }

/-- A genuine `Mat22` instance as an operand: it has `ex`/`ey` fields and no
`x`/`y` fields. -/
def matObj (m : Mat22) : JsObj :=
  { exf := some m.ex, eyf := some m.ey }

/-- The result of `Mat22.mul` / `Mat22.mulT`: a vector or a matrix. -/
inductive MulResult where
  | vec (v : Vec2)
  | mat (m : Mat22)
deriving DecidableEq, Repr

namespace Mat22

/-- `Mat22.mul(mx, v)`: if `v` is non-null and has `x` and `y` fields it is
treated as a vector (`Vec2.assert(v)`, then the matrix–vector product);
otherwise, if it has `ex` and `ey` fields, as a matrix (`Mat22.assert(v)`,
then `new Mat22(Vec2.mul(mx, v.ex), Vec2.mul(mx, v.ey))`); otherwise
`common.assert(false)` raises. -/
def mul (mx : Mat22) (v : Option JsObj) : Except String MulResult :=
  match v with
  | none => .error "assert"
  | some o =>
    match o.xf, o.yf with
    | some vx, some vy =>
      if !Vec2.isValid ⟨vx, vy⟩ then .error "Invalid Vec2!" else
      .ok (.vec ⟨jadd (jmul mx.ex.x vx) (jmul mx.ey.x vy),
                 jadd (jmul mx.ex.y vx) (jmul mx.ey.y vy)⟩)
    | _, _ =>
      match o.exf, o.eyf with
      | some vex, some vey =>
        if !Mat22.isValid ⟨vex, vey⟩ then .error "Invalid Mat22!" else
        .ok (.mat ⟨Vec2.mulByMat mx vex, Vec2.mulByMat mx vey⟩)
      | _, _ => .error "assert"

/-- `Mat22.mulT(mx, v)`: transpose-multiply with the same operand dispatch as
`mul`; the vector branch returns `(dot(v, ex), dot(v, ey))`, the matrix
branch the matrix with columns `(dot(ex, v.ex), dot(ey, v.ex))` and
`(dot(ex, v.ey), dot(ey, v.ey))`. -/
def mulT (mx : Mat22) (v : Option JsObj) : Except String MulResult :=
  match v with
  | none => .error "assert"
  | some o =>
    match o.xf, o.yf with
    | some vx, some vy =>
      if !Vec2.isValid ⟨vx, vy⟩ then .error "Invalid Vec2!" else
      .ok (.vec ⟨Vec2.dot ⟨vx, vy⟩ mx.ex, Vec2.dot ⟨vx, vy⟩ mx.ey⟩)
    | _, _ =>
      match o.exf, o.eyf with
      | some vex, some vey =>
        if !Mat22.isValid ⟨vex, vey⟩ then .error "Invalid Mat22!" else
        .ok (.mat ⟨⟨Vec2.dot mx.ex vex, Vec2.dot mx.ey vex⟩,
                   ⟨Vec2.dot mx.ex vey, Vec2.dot mx.ey vey⟩⟩)
      | _, _ => .error "assert"

/-- `Mat22.abs(mx)`: `Mat22.assert(mx)`, then a new matrix of element-wise
absolute values of the columns. -/
def mabs (mx : Mat22) : Except String Mat22 :=
  if !mx.isValid then .error "Invalid Mat22!" else
  .ok ⟨Vec2.vabs mx.ex, Vec2.vabs mx.ey⟩

end Mat22

/-- The value of the JS expression `u + w` for two `Vec2` objects: neither
operand is a primitive, so `+` converts both to strings (via `toString`,
which is `JSON.stringify`) and concatenates — the result is a string, never
a vector.  The exact rendering of the numbers is irrelevant to every claim
and is abstracted. -/
inductive JsVal where
  | vec (v : Vec2)
  | str (s : String)
  | undefined
deriving DecidableEq, Repr

/-- JS `+` applied to two `Vec2` objects produces a string. -/
def jsPlusObjects (_u _w : Vec2) : JsVal :=
  .str "stringified vectors"

/-- Modelled from the spec: `Vec2.add`, the vector-addition helper of the
companion vector type (`Vec2.js` is not under src/): it requires two valid
vector arguments (assertions) and returns their component-wise sum.  A
missing second argument is JS `undefined`. -/
def Vec2.addVal (a b : JsVal) : Except String Vec2 :=
  match a, b with
  | .vec v, .vec w =>
    if !v.isValid || !w.isValid then .error "Invalid Vec2!" else
    .ok ⟨jadd v.x w.x, jadd v.y w.y⟩
  | _, _ => .error "Invalid Vec2!"

/-- `Mat22.add(mx1, mx2)`: asserts both matrices, then builds
`new Mat22(Vec2.add(mx1.ex + mx2.ex), Vec2.add(mx1.ey + mx2.ey))` — note the
single argument `mx1.ex + mx2.ex`, the JS `+` of two vector objects (a
string), with the second argument of `Vec2.add` left `undefined`. -/
def Mat22.madd (m1 m2 : Mat22) : Except String Mat22 := do
  if !m1.isValid then throw "Invalid Mat22!" else
  if !m2.isValid then throw "Invalid Mat22!" else do
  let c1 ← Vec2.addVal (jsPlusObjects m1.ex m2.ex) .undefined
  let c2 ← Vec2.addVal (jsPlusObjects m1.ey m2.ey) .undefined
  return ⟨c1, c2⟩

/-! ### Heap model for allocation and mutation

Only `Vec2` cells live in the store; a matrix object is identified with the
pair of addresses of its column cells.  `alloc` returns the next fresh
address (`new Vec2()` / the columns of `new Mat22()` start as `(0, 0)`). -/

/-- A store of `Vec2` cells: the contents of every address, and the next
fresh address (every allocated object lives below `next`). -/
structure Store where
  mem : Nat → Vec2
  next : Nat

namespace Store

/-- Overwrite the whole cell at `p`. -/
def write (s : Store) (p : Nat) (v : Vec2) : Store :=
  ⟨fun q => if q = p then v else s.mem q, s.next⟩

/-- The field write `cell.x = n`. -/
def writeX (s : Store) (p : Nat) (n : JsNum) : Store :=
  s.write p ⟨n, (s.mem p).y⟩

/-- The field write `cell.y = n`. -/
def writeY (s : Store) (p : Nat) (n : JsNum) : Store :=
  s.write p ⟨(s.mem p).x, n⟩

/-- Allocate a fresh cell holding `v`; returns the new store and the address
of the cell. -/
def alloc (s : Store) (v : Vec2) : Store × Nat :=
  (⟨fun q => if q = s.next then v else s.mem q, s.next + 1⟩, s.next)

end Store

/-- A `Mat22` object in the heap: the addresses of its `ex` and `ey` column
cells. -/
structure Mat22Ref where
  ex : Nat
  ey : Nat

/-- Heap-level `Mat22.prototype.getInverse`: read the receiver's fields,
allocate a fresh `new Mat22()` (two fresh zero column cells), then perform
the four field writes of the source in order.  Returns the updated store and
the new matrix object. -/
def Mat22.getInverseH (s : Store) (m : Mat22Ref) : Store × Mat22Ref :=
  let a := (s.mem m.ex).x
  let b := (s.mem m.ey).x
  let c := (s.mem m.ex).y
  let d := (s.mem m.ey).y
  let det0 := jsub (jmul a d) (jmul b c)
  let det := if det0.neZero then jdiv (fin 1) det0 else det0
  let al1 := s.alloc ⟨fin 0, fin 0⟩
  let al2 := al1.1.alloc ⟨fin 0, fin 0⟩
  let s3 := al2.1.writeX al1.2 (jmul det d)
  let s4 := s3.writeX al2.2 (jmul (jneg det) b)
  let s5 := s4.writeY al1.2 (jmul (jneg det) c)
  let s6 := s5.writeY al2.2 (jmul det a)
  (s6, ⟨al1.2, al2.2⟩)

/-- Heap-level `Mat22.prototype.solve`: `Vec2.assert(v)` (`none` when the
vector at `vp` is invalid), read the receiver's fields, allocate the fresh
`new Vec2()`, then write its two components.  Returns the updated store and
the address of the result vector. -/
def Mat22.solveH (s : Store) (m : Mat22Ref) (vp : Nat) : Option (Store × Nat) :=
  if !(s.mem vp).isValid then none else
  let a := (s.mem m.ex).x
  let b := (s.mem m.ey).x
  let c := (s.mem m.ex).y
  let d := (s.mem m.ey).y
  let det0 := jsub (jmul a d) (jmul b c)
  let det := if det0.neZero then jdiv (fin 1) det0 else det0
  let al := s.alloc ⟨fin 0, fin 0⟩
  let s2 := al.1.writeX al.2
    (jmul det (jsub (jmul d (al.1.mem vp).x) (jmul b (al.1.mem vp).y)))
  let s3 := s2.writeY al.2
    (jmul det (jsub (jmul a (s2.mem vp).y) (jmul c (s2.mem vp).x)))
  some (s3, al.2)

/-! ### Helper lemmas -/

/-- On a scalar-built matrix the determinant test of `getInverse`/`solve`
is the rational test `a*d - b*c ≠ 0`. -/
lemma neZero_det (a b c d : ℚ) :
    (jsub (jmul (fin a) (fin d)) (jmul (fin b) (fin c))).neZero
      = decide (a * d - b * c ≠ 0) := by
  simp [jsub, jmul, JsNum.neZero]

/-- `getInverse` on a scalar-built matrix with non-zero determinant,
written with `r = 1/(a*d - b*c)`. -/
lemma getInverse_ofScalars (a b c d : ℚ) (h : a * d - b * c ≠ 0) :
    Mat22.getInverse (Mat22.ofScalars a b c d) =
      Mat22.ofScalars (1 / (a * d - b * c) * d) (-(1 / (a * d - b * c) * b))
        (-(1 / (a * d - b * c) * c)) (1 / (a * d - b * c) * a) := by
  simp only [Mat22.getInverse, Mat22.ofScalars, jsub, jmul, JsNum.neZero]
  rw [if_pos (by simpa using h)]
  simp only [jdiv, if_neg h, jneg, jmul]
  simp only [Mat22.mk.injEq, Vec2.mk.injEq, JsNum.fin.injEq]
  refine ⟨⟨?_, ?_⟩, ?_, ?_⟩ <;> ring_nf

/-- `solve` on a scalar-built matrix and a finite vector with non-zero
determinant. -/
lemma solve_ofScalars (a b c d vx vy : ℚ) (h : a * d - b * c ≠ 0) :
    (Mat22.ofScalars a b c d).solve ⟨fin vx, fin vy⟩ =
      .ok ⟨fin (1 / (a * d - b * c) * (d * vx - b * vy)),
           fin (1 / (a * d - b * c) * (a * vy - c * vx))⟩ := by
  simp only [Mat22.solve, Mat22.ofScalars, Vec2.isValid, JsNum.isFinite,
    Bool.and_self, Bool.not_true, Bool.false_eq_true, if_false, jsub, jmul,
    JsNum.neZero]
  rw [if_pos (by simpa using h)]
  simp only [jdiv, if_neg h, jmul]

/-- C1: for every matrix with non-zero determinant `det = a*d - b*c`
(`a = ex.x, b = ey.x, c = ex.y, d = ey.y`), `getInverse()` returns the
adjugate-over-determinant inverse `{ ex: (r*d, -r*c), ey: (-r*b, r*a) }`
with `r = 1/det`. -/
theorem C1_getInverse_nonsingular (a b c d : ℚ) (h : a * d - b * c ≠ 0) :
    Mat22.getInverse (Mat22.ofScalars a b c d) =
      Mat22.ofScalars (1 / (a * d - b * c) * d) (-(1 / (a * d - b * c) * b))
        (-(1 / (a * d - b * c) * c)) (1 / (a * d - b * c) * a) :=
  getInverse_ofScalars a b c d h

/-- C1 witness: `Matrix(2,0,0,2).getInverse() = Matrix(0.5, 0, 0, 0.5)`. -/
theorem C1_witness :
    Mat22.getInverse (Mat22.ofScalars 2 0 0 2) =
      Mat22.ofScalars (1/2) 0 0 (1/2) := by
  have h := C1_getInverse_nonsingular 2 0 0 2 (by norm_num)
  norm_num at h
  exact h

/-- C2: on a matrix with zero determinant neither `getInverse()` nor
`solve(v)` signals an error: the reciprocal stays `0`, `getInverse()` is the
all-zero matrix and `solve(v)` is `ok` with the zero vector for every valid
`v`. -/
theorem C2_singular_policy (a b c d : ℚ) (h : a * d - b * c = 0) :
    Mat22.getInverse (Mat22.ofScalars a b c d) = Mat22.ofScalars 0 0 0 0 ∧
    ∀ v : Vec2, v.isValid = true →
      (Mat22.ofScalars a b c d).solve v = .ok ⟨fin 0, fin 0⟩ := by
  constructor
  · simp only [Mat22.getInverse, Mat22.ofScalars, jsub, jmul, JsNum.neZero]
    rw [if_neg (by simp [h])]
    simp [h, jneg, jmul]
  · intro v hv
    obtain ⟨x, y⟩ := v
    cases x with
    | undef => simp [Vec2.isValid, JsNum.isFinite] at hv
    | fin vx =>
      cases y with
      | undef => simp [Vec2.isValid, JsNum.isFinite] at hv
      | fin vy =>
        simp only [Mat22.solve, Mat22.ofScalars, Vec2.isValid, JsNum.isFinite,
          Bool.and_self, Bool.not_true, Bool.false_eq_true, if_false, jsub,
          jmul, JsNum.neZero]
        rw [if_neg (by simp [h])]
        simp [h, jmul, jsub]

/-- C2 witness: the singular `Matrix(1,2,2,4)` yields the zero matrix and,
on `v = (1,1)`, the zero vector. -/
theorem C2_witness :
    Mat22.getInverse (Mat22.ofScalars 1 2 2 4) = Mat22.ofScalars 0 0 0 0 ∧
    (Mat22.ofScalars 1 2 2 4).solve ⟨fin 1, fin 1⟩ = .ok ⟨fin 0, fin 0⟩ := by
  have h := C2_singular_policy 1 2 2 4 (by norm_num)
  exact ⟨h.1, h.2 ⟨fin 1, fin 1⟩ (by decide)⟩

/-- C3: for a matrix with non-zero determinant, the direct Cramer solve
agrees with computing `getInverse()` and applying the inverse matrix to `v`
through `Mat22.mul`. -/
theorem C3_solve_refines_inverse (a b c d vx vy : ℚ) (h : a * d - b * c ≠ 0) :
    Mat22.mul (Mat22.getInverse (Mat22.ofScalars a b c d))
        (some (vecObj ⟨fin vx, fin vy⟩)) =
      Except.map MulResult.vec ((Mat22.ofScalars a b c d).solve ⟨fin vx, fin vy⟩) := by
  rw [getInverse_ofScalars a b c d h, solve_ofScalars a b c d vx vy h]
  simp only [Mat22.mul, Mat22.ofScalars, vecObj, Vec2.isValid, JsNum.isFinite,
    Bool.and_self, Bool.not_true, Bool.false_eq_true, if_false, jadd, jmul,
    Except.map]
  simp only [Except.ok.injEq, MulResult.vec.injEq, Vec2.mk.injEq,
    JsNum.fin.injEq]
  constructor <;> ring_nf

/-- C3 witness: `Matrix(2,0,0,2)`, `v = (4,6)`: both routes give `(2,3)`. -/
theorem C3_witness :
    Mat22.mul (Mat22.getInverse (Mat22.ofScalars 2 0 0 2))
        (some (vecObj ⟨fin 4, fin 6⟩)) =
      Except.map MulResult.vec ((Mat22.ofScalars 2 0 0 2).solve ⟨fin 4, fin 6⟩) :=
  C3_solve_refines_inverse 2 0 0 2 4 6 (by norm_num)

/-- A valid matrix has valid columns. -/
lemma isValid_ex {m : Mat22} (hm : m.isValid = true) : m.ex.isValid = true := by
  simp only [Mat22.isValid, Bool.and_eq_true] at hm
  exact hm.1

/-- A valid matrix has valid columns. -/
lemma isValid_ey {m : Mat22} (hm : m.isValid = true) : m.ey.isValid = true := by
  simp only [Mat22.isValid, Bool.and_eq_true] at hm
  exact hm.2

/-- A valid vector has finite (rational) components. -/
lemma isValid_components {v : Vec2} (hv : v.isValid = true) :
    ∃ a b : ℚ, v = ⟨fin a, fin b⟩ := by
  obtain ⟨x, y⟩ := v
  cases x with
  | undef => simp [Vec2.isValid, JsNum.isFinite] at hv
  | fin a =>
    cases y with
    | undef => simp [Vec2.isValid, JsNum.isFinite] at hv
    | fin b => exact ⟨a, b, rfl⟩

/-- C4: `Mat22.mul` on a matrix operand returns a matrix whose first column
is `mx` applied to `v.ex` and whose second column is `mx` applied to `v.ey`
(each column equal to what `Mat22.mul` itself produces on that column as a
vector operand) — standard matrix composition. -/
theorem C4_mul_matrix_composition (mx m : Mat22) (hm : m.isValid = true) :
    ∃ r : Mat22,
      Mat22.mul mx (some (matObj m)) = .ok (.mat r) ∧
      Mat22.mul mx (some (vecObj m.ex)) = .ok (.vec r.ex) ∧
      Mat22.mul mx (some (vecObj m.ey)) = .ok (.vec r.ey) := by
  have hex := isValid_ex hm
  have hey := isValid_ey hm
  refine ⟨⟨Vec2.mulByMat mx m.ex, Vec2.mulByMat mx m.ey⟩, ?_, ?_, ?_⟩
  · simp [Mat22.mul, matObj, hm]
  · simp [Mat22.mul, vecObj, hex, Vec2.mulByMat]
  · simp [Mat22.mul, vecObj, hey, Vec2.mulByMat]

/-- C4 witness at concrete matrices. -/
theorem C4_witness :
    ∃ r : Mat22,
      Mat22.mul (Mat22.ofScalars 1 2 3 4) (some (matObj (Mat22.ofScalars 5 6 7 8)))
        = .ok (.mat r) ∧
      Mat22.mul (Mat22.ofScalars 1 2 3 4)
          (some (vecObj (Mat22.ofScalars 5 6 7 8).ex)) = .ok (.vec r.ex) ∧
      Mat22.mul (Mat22.ofScalars 1 2 3 4)
          (some (vecObj (Mat22.ofScalars 5 6 7 8).ey)) = .ok (.vec r.ey) :=
  C4_mul_matrix_composition (Mat22.ofScalars 1 2 3 4) (Mat22.ofScalars 5 6 7 8)
    (by decide)

/-- C5 (source defect): `Mat22.add` on two perfectly valid matrices does not
return their element-wise sum — the JS expression `mx1.ex + mx2.ex` turns the
columns into a string, so the vector-addition helper receives one malformed
argument and its assertion fails; no sum is ever produced. -/
theorem C5_add_defect :
    Mat22.madd (Mat22.ofScalars 1 2 3 4) (Mat22.ofScalars 5 6 7 8) =
      .error "Invalid Vec2!" ∧
    Mat22.madd (Mat22.ofScalars 1 2 3 4) (Mat22.ofScalars 5 6 7 8) ≠
      .ok (Mat22.ofScalars 6 8 10 12) := by
  refine ⟨rfl, fun h => ?_⟩
  rw [show Mat22.madd (Mat22.ofScalars 1 2 3 4) (Mat22.ofScalars 5 6 7 8) =
      Except.error "Invalid Vec2!" from rfl] at h
  exact Except.noConfusion h

/-- The spec-modelled `Vec2.mul` call of `Mat22.mul`'s matrix branch maps a
valid vector through the identity matrix unchanged. -/
lemma mulByMat_setIdentity (m0 : Mat22) {w : Vec2} (hw : w.isValid = true) :
    Vec2.mulByMat (Mat22.setIdentity m0) w = w := by
  obtain ⟨a, b, rfl⟩ := isValid_components hw
  simp [Vec2.mulByMat, Mat22.setIdentity, jadd, jmul]

/-- C6: the matrix produced by `setIdentity` is a left identity for `mul`:
`mul(I, v) = v` for every valid vector operand and `mul(I, M) = M` for every
valid matrix operand. -/
theorem C6_identity_left (m0 : Mat22) (v : Vec2) (hv : v.isValid = true)
    (m : Mat22) (hm : m.isValid = true) :
    Mat22.mul (Mat22.setIdentity m0) (some (vecObj v)) = .ok (.vec v) ∧
    Mat22.mul (Mat22.setIdentity m0) (some (matObj m)) = .ok (.mat m) := by
  constructor
  · obtain ⟨a, b, rfl⟩ := isValid_components hv
    simp [Mat22.mul, vecObj, Vec2.isValid, JsNum.isFinite, Mat22.setIdentity,
      jadd, jmul]
  · have h1 := mulByMat_setIdentity m0 (isValid_ex hm)
    have h2 := mulByMat_setIdentity m0 (isValid_ey hm)
    simp [Mat22.mul, matObj, hm, h1, h2]

/-- C6 witness at a concrete vector and matrix. -/
theorem C6_witness :
    Mat22.mul (Mat22.setIdentity (Mat22.ofScalars 9 9 9 9))
        (some (vecObj ⟨fin 3, fin 5⟩)) = .ok (.vec ⟨fin 3, fin 5⟩) ∧
    Mat22.mul (Mat22.setIdentity (Mat22.ofScalars 9 9 9 9))
        (some (matObj (Mat22.ofScalars 1 2 3 4)))
      = .ok (.mat (Mat22.ofScalars 1 2 3 4)) :=
  C6_identity_left (Mat22.ofScalars 9 9 9 9) ⟨fin 3, fin 5⟩ (by decide)
    (Mat22.ofScalars 1 2 3 4) (by decide)

/-- `Matrix(0,1,-1,0)` applied to `(1,0)` gives `(0,-1)`. -/
lemma mul_rot_concrete :
    Mat22.mul (Mat22.ofScalars 0 1 (-1) 0) (some (vecObj ⟨fin 1, fin 0⟩))
      = .ok (.vec ⟨fin 0, fin (-1)⟩) := by
  simp [Mat22.mul, Mat22.ofScalars, vecObj, Vec2.isValid, JsNum.isFinite,
    jadd, jmul]

/-- The transpose of `Matrix(0,1,-1,0)` applied to `(0,1)` gives `(-1,0)`. -/
lemma mulT_rot_concrete :
    Mat22.mulT (Mat22.ofScalars 0 1 (-1) 0) (some (vecObj ⟨fin 0, fin 1⟩))
      = .ok (.vec ⟨fin (-1), fin 0⟩) := by
  simp [Mat22.mulT, Mat22.ofScalars, vecObj, Vec2.isValid, JsNum.isFinite,
    Vec2.dot, jadd, jmul]

/-- C7 counterexample: the claimed concrete value is wrong on the code —
`Matrix(0,1,-1,0)` has columns `ex = (0,-1)`, `ey = (1,0)`, so
`mul(M, (1,0))` is `(0,-1)`, not `(0,1)` as claimed. -/
theorem C7_counterexample :
    Mat22.mul (Mat22.ofScalars 0 1 (-1) 0) (some (vecObj ⟨fin 1, fin 0⟩)) ≠
      .ok (.vec ⟨fin 0, fin 1⟩) := by
  intro h
  rw [show Mat22.mul (Mat22.ofScalars 0 1 (-1) 0) (some (vecObj ⟨fin 1, fin 0⟩))
      = .ok (.vec ⟨fin 0, fin (-1)⟩) from mul_rot_concrete] at h
  simp only [Except.ok.injEq, MulResult.vec.injEq, Vec2.mk.injEq,
    JsNum.fin.injEq] at h
  norm_num at h

/-- C7 (amended): for every matrix with orthonormal columns
(`a²+c² = 1`, `b²+d² = 1`, `ab+cd = 0`) and every vector,
`mul(M, mulT(M, v)) = v`; and on the concrete `M = Matrix(0,1,-1,0)`,
`mul(M, (1,0)) = (0,-1)` and `mulT(M, (0,1)) = (-1,0)`. -/
theorem C7_rotation_roundtrip (a b c d vx vy : ℚ) (h1 : a^2 + c^2 = 1)
    (h2 : b^2 + d^2 = 1) (h3 : a*b + c*d = 0) :
    (∃ w : Vec2,
      Mat22.mulT (Mat22.ofScalars a b c d) (some (vecObj ⟨fin vx, fin vy⟩))
        = .ok (.vec w) ∧
      Mat22.mul (Mat22.ofScalars a b c d) (some (vecObj w))
        = .ok (.vec ⟨fin vx, fin vy⟩)) ∧
    Mat22.mul (Mat22.ofScalars 0 1 (-1) 0) (some (vecObj ⟨fin 1, fin 0⟩))
      = .ok (.vec ⟨fin 0, fin (-1)⟩) ∧
    Mat22.mulT (Mat22.ofScalars 0 1 (-1) 0) (some (vecObj ⟨fin 0, fin 1⟩))
      = .ok (.vec ⟨fin (-1), fin 0⟩) := by
  have h4 : c^2 = 1 - a^2 := by linarith
  have h5 : d^2 = 1 - b^2 := by linarith
  have hab : a*b = -(c*d) := by linarith
  have h7 : a^2*b^2 = (1-a^2)*(1-b^2) := by
    have hsq : (a*b)^2 = (c*d)^2 := by rw [hab]; ring
    calc a^2*b^2 = (a*b)^2 := by ring
      _ = (c*d)^2 := hsq
      _ = c^2*d^2 := by ring
      _ = (1-a^2)*(1-b^2) := by rw [h4, h5]
  have ha2b2 : a^2 + b^2 = 1 := by linear_combination h7
  have hc2d2 : c^2 + d^2 = 1 := by
    have : c^2 + d^2 = (1 - a^2) + (1 - b^2) := by rw [h4, h5]
    rw [this]; linarith [ha2b2]
  have he : (a*d - b*c)^2 = 1 := by
    linear_combination (b^2 + d^2) * h1 + h2 - (a*b + c*d) * h3
  have hprod : (a*c + b*d) * (a*d - b*c) = 0 := by
    linear_combination (a^2 - b^2) * h3 + (a*b) * h2 - (a*b) * h1
  have hacbd : a*c + b*d = 0 := by
    calc a*c + b*d = (a*c + b*d) * (a*d - b*c)^2 := by rw [he]; ring
      _ = ((a*c + b*d) * (a*d - b*c)) * (a*d - b*c) := by ring
      _ = 0 * (a*d - b*c) := by rw [hprod]
      _ = 0 := by ring
  refine ⟨⟨⟨fin (vx*a + vy*c), fin (vx*b + vy*d)⟩, ?_, ?_⟩,
    mul_rot_concrete, mulT_rot_concrete⟩
  · simp [Mat22.mulT, Mat22.ofScalars, vecObj, Vec2.isValid, JsNum.isFinite,
      Vec2.dot, jadd, jmul]
  · simp only [Mat22.mul, Mat22.ofScalars, vecObj, Vec2.isValid,
      JsNum.isFinite, Bool.and_self, Bool.not_true, Bool.false_eq_true,
      if_false, jadd, jmul, Except.ok.injEq, MulResult.vec.injEq,
      Vec2.mk.injEq, JsNum.fin.injEq]
    constructor
    · linear_combination vx * ha2b2 + vy * hacbd
    · linear_combination vx * hacbd + vy * hc2d2

/-- C7 witness: the round trip at the rotation `Matrix(0,1,-1,0)` and
`v = (3,5)`, together with the corrected concrete values. -/
theorem C7_witness :
    (∃ w : Vec2,
      Mat22.mulT (Mat22.ofScalars 0 1 (-1) 0) (some (vecObj ⟨fin 3, fin 5⟩))
        = .ok (.vec w) ∧
      Mat22.mul (Mat22.ofScalars 0 1 (-1) 0) (some (vecObj w))
        = .ok (.vec ⟨fin 3, fin 5⟩)) ∧
    Mat22.mul (Mat22.ofScalars 0 1 (-1) 0) (some (vecObj ⟨fin 1, fin 0⟩))
      = .ok (.vec ⟨fin 0, fin (-1)⟩) ∧
    Mat22.mulT (Mat22.ofScalars 0 1 (-1) 0) (some (vecObj ⟨fin 0, fin 1⟩))
      = .ok (.vec ⟨fin (-1), fin 0⟩) :=
  C7_rotation_roundtrip 0 1 (-1) 0 3 5 (by norm_num) (by norm_num) (by norm_num)

/-- C8 counterexample: an invalid matrix (NaN in `ex.x`) is consumed by
`solve` and `getInverse` without any assertion failure — `solve` with a valid
`v` returns `ok` (a NaN-filled vector) and `getInverse` computes a NaN-filled
matrix, contradicting the claim that every operation rejects an invalid
matrix before using it. -/
theorem C8_counterexample :
    Mat22.isValid ⟨⟨undef, fin 0⟩, ⟨fin 0, fin 0⟩⟩ = false ∧
    Mat22.solve ⟨⟨undef, fin 0⟩, ⟨fin 0, fin 0⟩⟩ ⟨fin 1, fin 1⟩
      = .ok ⟨undef, undef⟩ ∧
    Mat22.getInverse ⟨⟨undef, fin 0⟩, ⟨fin 0, fin 0⟩⟩
      = ⟨⟨undef, undef⟩, ⟨undef, undef⟩⟩ := by
  refine ⟨by decide, ?_, by decide⟩
  simp [Mat22.solve, Vec2.isValid, JsNum.isFinite, jsub, jmul, jdiv,
    JsNum.neZero]

/-- C8 (amended): in a debug build the assertions that do exist reject
invalid values — `mul`/`mulT` reject an invalid operand (vector or matrix),
`abs` and `add` reject invalid matrix arguments, and `solve` rejects an
invalid vector argument — but the receiver matrix is never validated:
`solve` succeeds on any receiver whenever `v` is valid (and `getInverse`,
which contains no assertion at all, is a total function on matrices). -/
theorem C8_assert_coverage :
    (∀ (mx o : Mat22), o.isValid = false →
      Mat22.mul mx (some (matObj o)) = .error "Invalid Mat22!") ∧
    (∀ (mx o : Mat22), o.isValid = false →
      Mat22.mulT mx (some (matObj o)) = .error "Invalid Mat22!") ∧
    (∀ (mx : Mat22) (v : Vec2), v.isValid = false →
      Mat22.mul mx (some (vecObj v)) = .error "Invalid Vec2!") ∧
    (∀ (mx : Mat22) (v : Vec2), v.isValid = false →
      Mat22.mulT mx (some (vecObj v)) = .error "Invalid Vec2!") ∧
    (∀ (m : Mat22) (v : Vec2), v.isValid = false →
      m.solve v = .error "Invalid Vec2!") ∧
    (∀ m : Mat22, m.isValid = false → m.mabs = .error "Invalid Mat22!") ∧
    (∀ m1 m2 : Mat22, m1.isValid = false →
      Mat22.madd m1 m2 = .error "Invalid Mat22!") ∧
    (∀ (m : Mat22) (v : Vec2), v.isValid = true → ∃ w, m.solve v = .ok w) := by
  refine ⟨?_, ?_, ?_, ?_, ?_, ?_, ?_, ?_⟩
  · intro mx o h; simp [Mat22.mul, matObj, h]
  · intro mx o h; simp [Mat22.mulT, matObj, h]
  · intro mx v h; simp [Mat22.mul, vecObj, h]
  · intro mx v h; simp [Mat22.mulT, vecObj, h]
  · intro m v h; simp [Mat22.solve, h]
  · intro m h; simp [Mat22.mabs, h]
  · intro m1 m2 h
    simp only [Mat22.madd, h, Bool.not_false, if_true]
    rfl
  · intro m v h
    exact ⟨_, by
      simp only [Mat22.solve, h, Bool.not_true, Bool.false_eq_true, if_false]
      rfl⟩

/-- C8 witness: each assertion conjunct instantiated at the invalid matrix
`badM` (NaN in `ex.x`), the invalid vector `(NaN, 0)`, and the unchecked
receiver at `badM` with the valid vector `(1,1)`. -/
theorem C8_witness :
    Mat22.mul (Mat22.ofScalars 1 0 0 1)
        (some (matObj ⟨⟨undef, fin 0⟩, ⟨fin 0, fin 0⟩⟩))
      = .error "Invalid Mat22!" ∧
    Mat22.mulT (Mat22.ofScalars 1 0 0 1)
        (some (matObj ⟨⟨undef, fin 0⟩, ⟨fin 0, fin 0⟩⟩))
      = .error "Invalid Mat22!" ∧
    Mat22.mul (Mat22.ofScalars 1 0 0 1) (some (vecObj ⟨undef, fin 0⟩))
      = .error "Invalid Vec2!" ∧
    Mat22.mulT (Mat22.ofScalars 1 0 0 1) (some (vecObj ⟨undef, fin 0⟩))
      = .error "Invalid Vec2!" ∧
    (Mat22.ofScalars 1 0 0 1).solve ⟨undef, fin 0⟩ = .error "Invalid Vec2!" ∧
    Mat22.mabs ⟨⟨undef, fin 0⟩, ⟨fin 0, fin 0⟩⟩ = .error "Invalid Mat22!" ∧
    Mat22.madd ⟨⟨undef, fin 0⟩, ⟨fin 0, fin 0⟩⟩ (Mat22.ofScalars 1 0 0 1)
      = .error "Invalid Mat22!" ∧
    ∃ w, Mat22.solve ⟨⟨undef, fin 0⟩, ⟨fin 0, fin 0⟩⟩ ⟨fin 1, fin 1⟩
      = .ok w := by
  obtain ⟨h1, h2, h3, h4, h5, h6, h7, h8⟩ := C8_assert_coverage
  exact ⟨h1 _ _ (by decide), h2 _ _ (by decide), h3 _ _ (by decide),
    h4 _ _ (by decide), h5 _ _ (by decide), h6 _ (by decide),
    h7 _ _ (by decide), h8 _ _ (by decide)⟩

/-- C10: in the operand dispatch of `mul` and `mulT` the vector test comes
first: an operand carrying both `x`/`y` fields and `ex`/`ey` fields is
treated as a vector — the result is the matrix–vector (resp.
transpose–vector) product, never a matrix. -/
theorem C10_vector_dispatch_first (mx : Mat22) (vx vy : JsNum) (e1 e2 : Vec2)
    (hv : Vec2.isValid ⟨vx, vy⟩ = true) :
    Mat22.mul mx (some ⟨some vx, some vy, some e1, some e2⟩) =
      .ok (.vec ⟨jadd (jmul mx.ex.x vx) (jmul mx.ey.x vy),
                 jadd (jmul mx.ex.y vx) (jmul mx.ey.y vy)⟩) ∧
    Mat22.mulT mx (some ⟨some vx, some vy, some e1, some e2⟩) =
      .ok (.vec ⟨Vec2.dot ⟨vx, vy⟩ mx.ex, Vec2.dot ⟨vx, vy⟩ mx.ey⟩) := by
  constructor
  · simp [Mat22.mul, hv]
  · simp [Mat22.mulT, hv]

/-- C10 witness: an operand with all four fields, at concrete values. -/
theorem C10_witness :
    Mat22.mul (Mat22.ofScalars 1 2 3 4)
        (some ⟨some (fin 1), some (fin 1), some ⟨fin 9, fin 9⟩,
               some ⟨fin 9, fin 9⟩⟩) =
      .ok (.vec ⟨jadd (jmul (fin 1) (fin 1)) (jmul (fin 2) (fin 1)),
                 jadd (jmul (fin 3) (fin 1)) (jmul (fin 4) (fin 1))⟩) ∧
    Mat22.mulT (Mat22.ofScalars 1 2 3 4)
        (some ⟨some (fin 1), some (fin 1), some ⟨fin 9, fin 9⟩,
               some ⟨fin 9, fin 9⟩⟩) =
      .ok (.vec ⟨Vec2.dot ⟨fin 1, fin 1⟩ (Mat22.ofScalars 1 2 3 4).ex,
                 Vec2.dot ⟨fin 1, fin 1⟩ (Mat22.ofScalars 1 2 3 4).ey⟩) :=
  C10_vector_dispatch_first (Mat22.ofScalars 1 2 3 4) (fin 1) (fin 1)
    ⟨fin 9, fin 9⟩ ⟨fin 9, fin 9⟩ (by decide)

/-- A sample store for instantiating the heap-model theorem: three allocated
cells, all holding the valid vector `(1, 2)`. -/
def sampleStore : Store :=
  ⟨fun _ => ⟨fin 1, fin 2⟩, 3⟩

/-- A sample receiver object whose columns are the cells `0` and `1` of
`sampleStore`. -/
def sampleRef : Mat22Ref :=
  ⟨0, 1⟩

/-- C9: `getInverse` and `solve` never mutate existing cells — every address
allocated before the call (in particular the receiver's columns and the
argument vector) holds its old value afterwards — and the returned object is
newly allocated: its cells are fresh addresses, distinct from the receiver's
columns. -/
theorem C9_no_mutation_fresh_result (s : Store) (m : Mat22Ref) (vp : Nat)
    (hex : m.ex < s.next) (hey : m.ey < s.next) (hvp : vp < s.next)
    (hv : (s.mem vp).isValid = true) :
    (∀ p, p < s.next → (Mat22.getInverseH s m).1.mem p = s.mem p) ∧
    s.next ≤ (Mat22.getInverseH s m).2.ex ∧
    s.next ≤ (Mat22.getInverseH s m).2.ey ∧
    (Mat22.getInverseH s m).2.ex ≠ m.ex ∧
    (Mat22.getInverseH s m).2.ex ≠ m.ey ∧
    (Mat22.getInverseH s m).2.ey ≠ m.ex ∧
    (Mat22.getInverseH s m).2.ey ≠ m.ey ∧
    (∃ s2 wp, Mat22.solveH s m vp = some (s2, wp) ∧
      (∀ p, p < s.next → s2.mem p = s.mem p) ∧
      s.next ≤ wp ∧ wp ≠ m.ex ∧ wp ≠ m.ey ∧ wp ≠ vp) := by
  have hre : (Mat22.getInverseH s m).2.ex = s.next := rfl
  have hry : (Mat22.getInverseH s m).2.ey = s.next + 1 := rfl
  have hframe : ∀ p, p < s.next → (Mat22.getInverseH s m).1.mem p = s.mem p := by
    intro p hp
    have h1 : p ≠ s.next := by omega
    have h2 : p ≠ s.next + 1 := by omega
    simp [Mat22.getInverseH, Store.alloc, Store.writeX, Store.writeY,
      Store.write, h1, h2]
  have hv' : (!(s.mem vp).isValid) = false := by simp [hv]
  refine ⟨hframe, by omega, by rw [hry]; omega, by rw [hre]; omega,
    by rw [hre]; omega, by rw [hry]; omega, by rw [hry]; omega, ?_⟩
  simp only [Mat22.solveH, hv', Bool.false_eq_true, if_false]
  refine ⟨_, _, rfl, ?_, ?_, ?_, ?_, ?_⟩
  · intro p hp
    have h1 : p ≠ s.next := by omega
    simp [Store.alloc, Store.writeX, Store.writeY, Store.write, h1]
  · simp [Store.alloc]
  · simp [Store.alloc]; omega
  · simp [Store.alloc]; omega
  · simp [Store.alloc]; omega

/-- C9 witness: the theorem instantiated on `sampleStore`/`sampleRef` with
the argument vector in cell `2`. -/
theorem C9_witness :
    (∀ p, p < sampleStore.next →
      (Mat22.getInverseH sampleStore sampleRef).1.mem p = sampleStore.mem p) ∧
    sampleStore.next ≤ (Mat22.getInverseH sampleStore sampleRef).2.ex ∧
    sampleStore.next ≤ (Mat22.getInverseH sampleStore sampleRef).2.ey ∧
    (Mat22.getInverseH sampleStore sampleRef).2.ex ≠ sampleRef.ex ∧
    (Mat22.getInverseH sampleStore sampleRef).2.ex ≠ sampleRef.ey ∧
    (Mat22.getInverseH sampleStore sampleRef).2.ey ≠ sampleRef.ex ∧
    (Mat22.getInverseH sampleStore sampleRef).2.ey ≠ sampleRef.ey ∧
    (∃ s2 wp, Mat22.solveH sampleStore sampleRef 2 = some (s2, wp) ∧
      (∀ p, p < sampleStore.next → s2.mem p = sampleStore.mem p) ∧
      sampleStore.next ≤ wp ∧ wp ≠ sampleRef.ex ∧ wp ≠ sampleRef.ey ∧
      wp ≠ 2) :=
  C9_no_mutation_fresh_result sampleStore sampleRef 2 (by decide) (by decide)
    (by decide) (by decide)
